import Mathlib

/-!
# lxpanel weather plugin: configuration marshaling and instance counting

A shallow embedding of `plugins/weather/weather.c`:

* `loadLocation` is the configuration-loading block of `weather_constructor`
  (the eight lookups that fill a zero-initialised `LocationInfo`);
* `weather_constructor` / `weather_destructor` are the two lifecycle callbacks,
  acting on an explicit `World` that carries the process-wide counter
  `g_instancecnt`, the state of the two global collaborators, the widget
  hierarchy, the configuration nodes and the traces of outward calls;
* `weather_save_configuration` is the save callback.

C strings are lists of characters (the bytes before the terminating NUL), a
`gchar *` is an `Option` of one (`none` is `NULL`), a `gint`/`int` is an `Int`
and a `guint` a `Nat`, with the 32-bit conversions written out.
-/

namespace Weather

/-! ## C strings and machine integers -/

/-- Contents of a NUL-terminated C string: the characters before the terminator. -/
abbrev CStr := List Char

/-- A `gchar *`: `none` is the `NULL` pointer. -/
abbrev CStrPtr := Option CStr

/-- The terminator character of C strings. -/
def NUL : Char := Char.ofNat 0

/-- The C string that starts at the beginning of a character buffer: everything
before the first NUL. -/
def cstrOfBuf (buf : List Char) : CStr := buf.takeWhile (fun c => c != NUL)

/-- The C `strlen`: the number of characters before the terminator. -/
def strlen (s : CStr) : Nat := s.length

/-- The element `s[0]` of a C string: its first character, or the terminator
when the string is empty. -/
def cstrHead (s : CStr) : Char := s.headD NUL

/-- GLib `g_strndup(str, n)`: `NULL` for a `NULL` argument, otherwise a copy of at
most `n` characters. -/
def g_strndup (str : CStrPtr) (n : Nat) : CStrPtr := str.map (List.take n)

/-- GLib `g_strdup_printf("%d", n)`: the decimal text of `n`. -/
def g_strdup_printf_d (n : Int) : CStrPtr := some (toString n).toList

/-- The call `snprintf(buf, 2, "%c", c)` on a two-byte buffer: the buffer afterwards
(the character, then the terminator) and the return value, the number of
characters the conversion produces. -/
def snprintf_c (c : Char) : List Char × Int := ([c, NUL], 1)

/-- The cast `(guint) i` of an `int`: reduction modulo `2^32`. -/
def toGuint (i : Int) : Nat := (i % 4294967296).toNat

/-- The cast `(int) n` of a `guint`: the two's complement reading of the low
32 bits. -/
def toCInt (n : Nat) : Int :=
  if n % 4294967296 < 2147483648 then ((n % 4294967296 : Nat) : Int)
  else ((n % 4294967296 : Nat) : Int) - 4294967296

/-- Increment or decrement result of a `gint`, reduced to the 32-bit signed range. -/
def wrapGint (i : Int) : Int := (i + 2147483648) % 4294967296 - 2147483648

/-! ## The location record -/

/-- Modelled from the spec: the `LocationInfo` record of `location.h` (the header
is not part of the sources at hand): five strings, a units character, an
unsigned refresh interval and an integer enabled flag. The field types are the
ones the casts and assignments of `weather.c` require. -/
structure LocationInfo where
  alias_ : CStrPtr
  city_ : CStrPtr
  state_ : CStrPtr
  country_ : CStrPtr
  woeid_ : CStrPtr
  units_ : Char
  interval_ : Nat
  enabled_ : Int
deriving DecidableEq, Repr

/-- The record `g_new0(LocationInfo, 1)` returns: every field zero. -/
def LocationInfo.zero : LocationInfo :=
  { alias_ := none, city_ := none, state_ := none, country_ := none,
    woeid_ := none, units_ := NUL, interval_ := 0, enabled_ := 0 }

/-! ## Logging -/

/-- The two log levels `weather.c` uses. -/
inductive LogLevel where
  | LXW_ERROR
  | LXW_DEBUG
deriving DecidableEq, Repr

/-- One `LXW_LOG` call: level, format string, integer arguments. -/
structure LogEntry where
  level : LogLevel
  fmt : String
  args : List Int
deriving DecidableEq, Repr

/-- A sequence of `LXW_LOG` calls, oldest first. -/
abbrev Log := List LogEntry

/-- An `LXW_LOG(LXW_ERROR, fmt)` call without arguments. -/
def logError (fmt : String) : LogEntry := { level := .LXW_ERROR, fmt := fmt, args := [] }

/-- An `LXW_LOG(LXW_DEBUG, fmt, args...)` call. -/
def logDebug (fmt : String) (args : List Int) : LogEntry :=
  { level := .LXW_DEBUG, fmt := fmt, args := args }

/-- Number of error-level messages in a log. -/
def errorCount (log : Log) : Nat := log.countP (fun e => e.level = LogLevel.LXW_ERROR)

/-! ## The configuration store -/

/-- Modelled from the spec: a value of the host's key/value configuration store
(`conf.h` is not part of the sources at hand): a string, possibly `NULL`, or an
integer. -/
inductive ConfValue where
  | str (s : CStrPtr)
  | int (n : Int)
deriving DecidableEq, Repr

/-- Modelled from the spec: a configuration node of `conf.h`, "flat key/value
pairs under a per-instance node". -/
abbrev config_setting_t := List (String × ConfValue)

/-- Modelled from the spec: `config_setting_get_member` of `conf.h`, the value
stored under a key, if any. -/
def config_setting_get_member (cfg : config_setting_t) (name : String) : Option ConfValue :=
  cfg.lookup name

/-- Modelled from the spec: `config_setting_lookup_string` of `conf.h`. It
succeeds (`some`) when the key holds a string and yields that string, which may
be `NULL`; it fails (`none`) when the key is absent or holds an integer. -/
def config_setting_lookup_string (cfg : config_setting_t) (name : String) : Option CStrPtr :=
  match config_setting_get_member cfg name with
  | some (.str s) => some s
  | _ => none

/-- Modelled from the spec: `config_setting_lookup_int` of `conf.h`. It succeeds
when the key holds an integer; it fails when the key is absent or holds a
string. -/
def config_setting_lookup_int (cfg : config_setting_t) (name : String) : Option Int :=
  match config_setting_get_member cfg name with
  | some (.int n) => some n
  | _ => none

/-- Modelled from the spec: writing a value under a key of a node, "write every
field of the record back into the host configuration node under fixed keys":
the value replaces the one stored under the key, or a new pair is appended. -/
def config_setting_put (cfg : config_setting_t) (name : String) (v : ConfValue) :
    config_setting_t :=
  match cfg with
  | [] => [(name, v)]
  | (k, old) :: rest =>
    if name == k then (k, v) :: rest else (k, old) :: config_setting_put rest name v

/-! ## The world the plugin runs in -/

/-- The per-instance private context `WeatherPluginPrivate`; widgets, panels and
configuration nodes are referred to by address. -/
structure WeatherPluginPrivate where
  myid_ : Int
  weather_ : Nat
  config_ : Nat
  panel_ : Nat
deriving DecidableEq, Repr

/-- Calls to the two process-global collaborators. -/
inductive CollabCall where
  | logutil_init (dest : String)
  | logutil_max_loglevel_set (level : LogLevel)
  | yahooutil_init
  | yahooutil_cleanup
  | logutil_cleanup
deriving DecidableEq, Repr

/-- Process and host state: the static counter of `weather.c`, the state and
call trace of the collaborators, the log, the live private contexts, the widget
hierarchy with its plugin-data slots, the trace of "location" property
assignments, and the configuration nodes with the trace of writes to them. -/
structure World where
  g_instancecnt : Int
  logutil_up : Bool
  yahooutil_up : Bool
  calls : List CollabCall
  log : Log
  live : List WeatherPluginPrivate
  nextWidget : Nat
  parent : Nat → Option Nat
  pluginData : Nat → Option WeatherPluginPrivate
  propsets : List (Nat × LocationInfo)
  configs : Nat → config_setting_t
  writes : List (Nat × String × ConfValue)

/-- The macro `LXW_LOG(level, ...)`: append one entry to the log. -/
def LXW_LOG (w : World) (e : LogEntry) : World := { w with log := w.log ++ [e] }

/-- Modelled from the spec: `logutil_init(destination)` of `logutil.h`, which
brings the logging facility up. -/
def logutil_init (w : World) (dest : String) : World :=
  { w with logutil_up := true, calls := w.calls ++ [CollabCall.logutil_init dest] }

/-- Modelled from the spec: `logutil_max_loglevel_set(level)` of `logutil.h`. -/
def logutil_max_loglevel_set (w : World) (level : LogLevel) : World :=
  { w with calls := w.calls ++ [CollabCall.logutil_max_loglevel_set level] }

/-- Modelled from the spec: `yahooutil_init()` of `yahooutil.h`, which brings
the remote weather client up. -/
def yahooutil_init (w : World) : World :=
  { w with yahooutil_up := true, calls := w.calls ++ [CollabCall.yahooutil_init] }

/-- Modelled from the spec: `yahooutil_cleanup()` of `yahooutil.h`, which tears
the remote weather client down. -/
def yahooutil_cleanup (w : World) : World :=
  { w with yahooutil_up := false, calls := w.calls ++ [CollabCall.yahooutil_cleanup] }

/-- Modelled from the spec: `logutil_cleanup()` of `logutil.h`, which tears the
logging facility down. -/
def logutil_cleanup (w : World) : World :=
  { w with logutil_up := false, calls := w.calls ++ [CollabCall.logutil_cleanup] }

/-- Modelled from the spec: the `config_group_set_string` macro of `conf.h`
applied to the node at address `cfg`; the store keeps its own copy of the
string (`NULL` stays `NULL`). The call is recorded in `writes`. -/
def config_group_set_string (w : World) (cfg : Nat) (name : String) (value : CStrPtr) : World :=
  { w with
    configs := Function.update w.configs cfg
      (config_setting_put (w.configs cfg) name (ConfValue.str value)),
    writes := w.writes ++ [(cfg, name, ConfValue.str value)] }

/-- Modelled from the spec: the `config_group_set_int` macro of `conf.h` applied
to the node at address `cfg`. The call is recorded in `writes`. -/
def config_group_set_int (w : World) (cfg : Nat) (name : String) (value : Int) : World :=
  { w with
    configs := Function.update w.configs cfg
      (config_setting_put (w.configs cfg) name (ConfValue.int value)),
    writes := w.writes ++ [(cfg, name, ConfValue.int value)] }

/-! ## Loading the location (lines 114-170 of `weather.c`) -/

/-- The `alias` block: a string lookup, then an integer lookup printed with
`%d`, then the error. -/
def load_alias (config : config_setting_t) (st : LocationInfo × Log) : LocationInfo × Log :=
  match config_setting_lookup_string config "alias" with
  | some dummystr =>
    ({ st.1 with alias_ := g_strndup dummystr (match dummystr with
                                               | some s => strlen s
                                               | none => 0) }, st.2)
  | none =>
    match config_setting_lookup_int config "alias" with
    | some dummyint => ({ st.1 with alias_ := g_strdup_printf_d dummyint }, st.2)
    | none => (st.1, st.2 ++ [logError "Weather: could not lookup alias in config."])

/-- The `city` block: a string lookup or the error. -/
def load_city (config : config_setting_t) (st : LocationInfo × Log) : LocationInfo × Log :=
  match config_setting_lookup_string config "city" with
  | some dummystr =>
    ({ st.1 with city_ := g_strndup dummystr (match dummystr with
                                              | some s => strlen s
                                              | none => 0) }, st.2)
  | none => (st.1, st.2 ++ [logError "Weather: could not lookup city in config."])

/-- The `state` block: a string lookup or the error. -/
def load_state (config : config_setting_t) (st : LocationInfo × Log) : LocationInfo × Log :=
  match config_setting_lookup_string config "state" with
  | some dummystr =>
    ({ st.1 with state_ := g_strndup dummystr (match dummystr with
                                               | some s => strlen s
                                               | none => 0) }, st.2)
  | none => (st.1, st.2 ++ [logError "Weather: could not lookup state in config."])

/-- The `country` block: a string lookup or the error. -/
def load_country (config : config_setting_t) (st : LocationInfo × Log) : LocationInfo × Log :=
  match config_setting_lookup_string config "country" with
  | some dummystr =>
    ({ st.1 with country_ := g_strndup dummystr (match dummystr with
                                                 | some s => strlen s
                                                 | none => 0) }, st.2)
  | none => (st.1, st.2 ++ [logError "Weather: could not lookup country in config."])

/-- The `woeid` block: a string lookup, then an integer lookup printed with
`%d`, then the error. -/
def load_woeid (config : config_setting_t) (st : LocationInfo × Log) : LocationInfo × Log :=
  match config_setting_lookup_string config "woeid" with
  | some dummystr =>
    ({ st.1 with woeid_ := g_strndup dummystr (match dummystr with
                                               | some s => strlen s
                                               | none => 0) }, st.2)
  | none =>
    match config_setting_lookup_int config "woeid" with
    | some dummyint => ({ st.1 with woeid_ := g_strdup_printf_d dummyint }, st.2)
    | none => (st.1, st.2 ++ [logError "Weather: could not lookup woeid in config."])

/-- The `units` block: `location->units_ = dummystr[0]` after a successful
string lookup, or the error. Unlike the blocks above it reads through the
pointer unguarded, so a successful lookup of a `NULL` string is a fault
(`none`). -/
def load_units (config : config_setting_t) (st : LocationInfo × Log) :
    Option (LocationInfo × Log) :=
  match config_setting_lookup_string config "units" with
  | some (some dummystr) => some ({ st.1 with units_ := cstrHead dummystr }, st.2)
  | some none => none
  | none => some (st.1, st.2 ++ [logError "Weather: could not lookup units in config."])

/-- The `interval` block: an integer lookup cast to `guint`, or the error. -/
def load_interval (config : config_setting_t) (st : LocationInfo × Log) : LocationInfo × Log :=
  match config_setting_lookup_int config "interval" with
  | some dummyint => ({ st.1 with interval_ := toGuint dummyint }, st.2)
  | none => (st.1, st.2 ++ [logError "Weather: could not lookup interval in config."])

/-- The `enabled` block: an integer lookup cast to `gint`, or the error. -/
def load_enabled (config : config_setting_t) (st : LocationInfo × Log) : LocationInfo × Log :=
  match config_setting_lookup_int config "enabled" with
  | some dummyint => ({ st.1 with enabled_ := dummyint }, st.2)
  | none => (st.1, st.2 ++ [logError "Weather: could not lookup enabled flag in config."])

/-- The configuration-loading part of `weather_constructor`: a zero-initialised
record filled by the eight blocks in source order, together with the messages
logged on the way; `none` when the `units` block faults. -/
def loadLocation (config : config_setting_t) : Option (LocationInfo × Log) :=
  let st0 : LocationInfo × Log := (LocationInfo.zero, [])
  let st1 := load_alias config st0
  let st2 := load_city config st1
  let st3 := load_state config st2
  let st4 := load_country config st3
  let st5 := load_woeid config st4
  match load_units config st5 with
  | none => none
  | some st6 =>
    let st7 := load_interval config st6
    let st8 := load_enabled config st7
    some st8

/-- The `units` block does not fault on this node: the key is absent, holds an
integer, or holds a string that is not `NULL`. -/
def unitsReadable (config : config_setting_t) : Prop :=
  config_setting_lookup_string config "units" ≠ some none

instance (config : config_setting_t) : Decidable (unitsReadable config) :=
  inferInstanceAs (Decidable (_ ≠ _))

/-! ## The lifecycle callbacks -/

/-- The body of `weather_constructor`. It allocates the private context,
increments the counter and captures it as the instance id, initialises the two
collaborators when the counter is 1, creates the weather widget and the event
box around it, stores the private context in the event box, loads the location
from the configuration node and hands it to the weather widget when both
`alias_` and `woeid_` are set. It returns the new world and the event box, or
`none` when loading faults. -/
def weather_constructor (w : World) (panel config : Nat) : Option (World × Nat) :=
  let cnt := wrapGint (w.g_instancecnt + 1)
  let priv0 : WeatherPluginPrivate := { myid_ := 0, weather_ := 0, config_ := config, panel_ := panel }
  let w := { w with g_instancecnt := cnt }
  let priv1 := { priv0 with myid_ := cnt }
  let w := if cnt = 1 then
      yahooutil_init (logutil_max_loglevel_set (logutil_init w "syslog") LogLevel.LXW_ERROR)
    else w
  let w := LXW_LOG w (logDebug "weather_constructor()" [])
  let weather := w.nextWidget
  let priv := { priv1 with weather_ := weather }
  let eventbox := w.nextWidget + 1
  let w := { w with
    nextWidget := w.nextWidget + 2,
    live := priv :: w.live,
    pluginData := Function.update w.pluginData eventbox (some priv),
    parent := Function.update w.parent weather (some eventbox) }
  match loadLocation (w.configs config) with
  | none => none
  | some (location, msgs) =>
    let w := { w with log := w.log ++ msgs }
    let w := if location.alias_.isSome && location.woeid_.isSome then
        { w with propsets := w.propsets ++ [(weather, location)] }
      else w
    some (w, eventbox)

/-- The body of `weather_destructor`: log, free the private context, decrement
the counter, and tear the collaborators down when it reaches 0. -/
def weather_destructor (w : World) (priv : WeatherPluginPrivate) : World :=
  let w := LXW_LOG w (logDebug "weather_destructor(%d): %d" [priv.myid_, w.g_instancecnt])
  let w := { w with live := w.live.erase priv }
  let w := { w with g_instancecnt := wrapGint (w.g_instancecnt - 1) }
  if w.g_instancecnt = 0 then logutil_cleanup (yahooutil_cleanup w) else w

/-! ## Saving the location -/

/-- The lookup at the head of `weather_save_configuration`: the plugin data of
the widget's parent, `none` when there is no parent or no data. -/
def findPrivate (w : World) (widget : Nat) : Option WeatherPluginPrivate :=
  match w.parent widget with
  | some parent => w.pluginData parent
  | none => none

/-- The body of `weather_save_configuration`. -/
def weather_save_configuration (w : World) (widget : Nat) (location : Option LocationInfo) :
    World :=
  match findPrivate w widget with
  | none => LXW_LOG w (logError "Weather: weather_save_configuration() for invalid widget")
  | some priv =>
    let w := LXW_LOG w (logDebug "weather_save_configuration(%d)" [priv.myid_])
    match location with
    | none => w
    | some location =>
      let w := config_group_set_string w priv.config_ "alias" location.alias_
      let w := config_group_set_string w priv.config_ "city" location.city_
      let w := config_group_set_string w priv.config_ "state" location.state_
      let w := config_group_set_string w priv.config_ "country" location.country_
      let w := config_group_set_string w priv.config_ "woeid" location.woeid_
      let units := snprintf_c location.units_
      let w := if units.2 > 0 then
          config_group_set_string w priv.config_ "units" (some (cstrOfBuf units.1))
        else w
      let w := config_group_set_int w priv.config_ "interval" (toCInt location.interval_)
      let w := config_group_set_int w priv.config_ "enabled" location.enabled_
      w

/-! ## Closed forms used to state and prove the properties of the loader -/

/-- The eight configuration keys of a location, in source order. -/
def locationKeys : List String :=
  ["alias", "city", "state", "country", "woeid", "units", "interval", "enabled"]

/-- Number of the eight keys that are absent from a node. -/
def absentCount (config : config_setting_t) : Nat :=
  locationKeys.countP (fun k => (config_setting_get_member config k).isNone)

/-- The lookups a field's block tries all fail on this node: for `alias` and
`woeid` the string and the integer lookup, for `city`, `state`, `country` and
`units` the string lookup, for `interval` and `enabled` the integer lookup. -/
def lookupFails (config : config_setting_t) (key : String) : Bool :=
  if key = "alias" ∨ key = "woeid" then
    (config_setting_lookup_string config key).isNone &&
      (config_setting_lookup_int config key).isNone
  else if key = "interval" ∨ key = "enabled" then
    (config_setting_lookup_int config key).isNone
  else
    (config_setting_lookup_string config key).isNone

/-- Number of the eight fields whose lookups all fail on a node. -/
def failedCount (config : config_setting_t) : Nat :=
  locationKeys.countP (fun k => lookupFails config k)

/-- Every one of the eight keys that is present holds a value of a type its
block accepts. -/
def wellTyped (config : config_setting_t) : Prop :=
  ∀ k ∈ locationKeys, (config_setting_get_member config k).isSome → lookupFails config k = false

/-- The message a field's block logs when its lookups fail. -/
def missingMsg (key : String) : LogEntry :=
  if key = "enabled" then logError "Weather: could not lookup enabled flag in config."
  else logError ("Weather: could not lookup " ++ key ++ " in config.")

/-- The messages a field's block adds to the log on a node. -/
def fieldMsgs (config : config_setting_t) (key : String) : Log :=
  if lookupFails config key then [missingMsg key] else []

/-- The value a string-or-integer block (`alias`, `woeid`) leaves in its field. -/
def strOrIntField (config : config_setting_t) (key : String) : CStrPtr :=
  match config_setting_lookup_string config key with
  | some s => s
  | none =>
    match config_setting_lookup_int config key with
    | some n => g_strdup_printf_d n
    | none => none

/-- The value a string-only block (`city`, `state`, `country`) leaves in its field. -/
def strField (config : config_setting_t) (key : String) : CStrPtr :=
  match config_setting_lookup_string config key with
  | some s => s
  | none => none

/-- The value the `units` block leaves in its field when it does not fault. -/
def unitsField (config : config_setting_t) : Char :=
  match config_setting_lookup_string config "units" with
  | some (some s) => cstrHead s
  | _ => NUL

/-- The record the loader produces on a node on which it does not fault. -/
def loadedRecord (config : config_setting_t) : LocationInfo :=
  { alias_ := strOrIntField config "alias",
    city_ := strField config "city",
    state_ := strField config "state",
    country_ := strField config "country",
    woeid_ := strOrIntField config "woeid",
    units_ := unitsField config,
    interval_ := match config_setting_lookup_int config "interval" with
      | some n => toGuint n
      | none => 0,
    enabled_ := match config_setting_lookup_int config "enabled" with
      | some n => n
      | none => 0 }

/-- The messages the loader logs on a node, in source order. -/
def loadedMsgs (config : config_setting_t) : Log :=
  fieldMsgs config "alias" ++ fieldMsgs config "city" ++ fieldMsgs config "state" ++
  fieldMsgs config "country" ++ fieldMsgs config "woeid" ++ fieldMsgs config "units" ++
  fieldMsgs config "interval" ++ fieldMsgs config "enabled"

/-- The node `weather_save_configuration` leaves behind when it starts from
`config` and saves `location`: the eight writes applied in source order. -/
def savedNode (config : config_setting_t) (location : LocationInfo) : config_setting_t :=
  let c1 := config_setting_put config "alias" (ConfValue.str location.alias_)
  let c2 := config_setting_put c1 "city" (ConfValue.str location.city_)
  let c3 := config_setting_put c2 "state" (ConfValue.str location.state_)
  let c4 := config_setting_put c3 "country" (ConfValue.str location.country_)
  let c5 := config_setting_put c4 "woeid" (ConfValue.str location.woeid_)
  let c6 := config_setting_put c5 "units" (ConfValue.str (some (cstrOfBuf [location.units_, NUL])))
  let c7 := config_setting_put c6 "interval" (ConfValue.int (toCInt location.interval_))
  config_setting_put c7 "enabled" (ConfValue.int location.enabled_)

/-- The eight writes `weather_save_configuration` issues for `location` on the
node at address `cfg`, in source order. -/
def savedWrites (cfg : Nat) (location : LocationInfo) : List (Nat × String × ConfValue) :=
  [(cfg, "alias", ConfValue.str location.alias_),
   (cfg, "city", ConfValue.str location.city_),
   (cfg, "state", ConfValue.str location.state_),
   (cfg, "country", ConfValue.str location.country_),
   (cfg, "woeid", ConfValue.str location.woeid_),
   (cfg, "units", ConfValue.str (some (cstrOfBuf [location.units_, NUL]))),
   (cfg, "interval", ConfValue.int (toCInt location.interval_)),
   (cfg, "enabled", ConfValue.int location.enabled_)]

/-- A written value is not a `NULL` string. -/
def ConfValue.nonNull : ConfValue → Bool
  | ConfValue.str none => false
  | _ => true

/-! ## Sequences of lifecycle calls -/

/-- A lifecycle call the host makes: construct an instance on a panel with a
configuration node, or destroy the instance that owns a private context. -/
inductive Event where
  | construct (panel config : Nat)
  | destroy (priv : WeatherPluginPrivate)
deriving DecidableEq, Repr

/-- One lifecycle call; `none` when the constructor faults. -/
def step (w : World) : Event → Option World
  | Event.construct panel config => (weather_constructor w panel config).map Prod.fst
  | Event.destroy priv => some (weather_destructor w priv)

/-- The call can be made in this world: a construction whose loading does not
fault, or a destruction that targets a live instance. -/
def enabled (w : World) : Event → Bool
  | Event.construct _ config => decide (unitsReadable (w.configs config))
  | Event.destroy priv => decide (priv ∈ w.live)

/-- Every call of the sequence can be made when its turn comes. -/
def admissible (w : World) : List Event → Bool
  | [] => true
  | e :: es =>
    enabled w e &&
      match step w e with
      | some w2 => admissible w2 es
      | none => false

/-- The world after a sequence of lifecycle calls. -/
def run (w : World) : List Event → Option World
  | [] => some w
  | e :: es =>
    match step w e with
    | some w2 => run w2 es
    | none => none

/-- A world in which no instance has been constructed yet: the counter is at
its static initial value 0, the collaborators are down, no private context is
live. -/
def Initial (w : World) : Prop :=
  w.g_instancecnt = 0 ∧ w.logutil_up = false ∧ w.yahooutil_up = false ∧ w.live = []

/-- The collaborator calls of the initialisation branch of `weather_constructor`. -/
def initCalls : List CollabCall :=
  [CollabCall.logutil_init "syslog", CollabCall.logutil_max_loglevel_set LogLevel.LXW_ERROR,
   CollabCall.yahooutil_init]

/-- The collaborator calls of the teardown branch of `weather_destructor`. -/
def cleanupCalls : List CollabCall :=
  [CollabCall.yahooutil_cleanup, CollabCall.logutil_cleanup]

/-- A world with nothing in it, whose every configuration address holds `config`. -/
def emptyWorld (config : config_setting_t) : World :=
  { g_instancecnt := 0, logutil_up := false, yahooutil_up := false, calls := [], log := [],
    live := [], nextWidget := 0, parent := fun _ => none, pluginData := fun _ => none,
    propsets := [], configs := fun _ => config, writes := [] }

/-- The example node of the specification: alias "Home", woeid "12345", units
"F", interval 1800, enabled 1, and no city, state or country. -/
def homeNode : config_setting_t :=
  [("alias", ConfValue.str (some "Home".toList)),
   ("woeid", ConfValue.str (some "12345".toList)),
   ("units", ConfValue.str (some "F".toList)),
   ("interval", ConfValue.int 1800),
   ("enabled", ConfValue.int 1)]

/-- The example record of the specification: alias "Work", city "Springfield",
units C, interval 600, enabled 0, and state, country and woeid unset. -/
def workLocation : LocationInfo :=
  { alias_ := some "Work".toList, city_ := some "Springfield".toList, state_ := none,
    country_ := none, woeid_ := none, units_ := 'C', interval_ := 600, enabled_ := 0 }

/-- A world with one instance in place: widget 0 is the weather widget, widget 1
its event box, which carries a private context whose configuration node is at
address 0 and holds `config`. -/
def instanceWorld (config : config_setting_t) : World :=
  { g_instancecnt := 1, logutil_up := true, yahooutil_up := true, calls := initCalls, log := [],
    live := [{ myid_ := 1, weather_ := 0, config_ := 0, panel_ := 0 }], nextWidget := 2,
    parent := fun x => if x = 0 then some 1 else none,
    pluginData := fun x =>
      if x = 1 then some { myid_ := 1, weather_ := 0, config_ := 0, panel_ := 0 } else none,
    propsets := [], configs := fun _ => config, writes := [] }

/-- The bookkeeping invariant of the counter: it equals the number of live
private contexts, at most `n` of them, and each collaborator is up exactly when
the counter is positive. -/
def CountInv (w : World) (n : Nat) : Prop :=
  w.g_instancecnt = (w.live.length : Int) ∧ w.live.length ≤ n ∧
  (w.logutil_up = true ↔ 0 < w.g_instancecnt) ∧
  (w.yahooutil_up = true ↔ 0 < w.g_instancecnt)

/-- The change of the counter a lifecycle call is meant to make. -/
def Event.delta : Event → Int
  | Event.construct _ _ => 1
  | Event.destroy _ => -1

/-- A node in which `alias` and `woeid` are present and hold the empty string. -/
def emptyNamesNode : config_setting_t :=
  [("alias", ConfValue.str (some [])), ("woeid", ConfValue.str (some []))]

/-- A node in which all eight keys are present and `city` holds an integer. -/
def cityIntNode : config_setting_t :=
  [("alias", ConfValue.str (some "Home".toList)),
   ("city", ConfValue.int 7),
   ("state", ConfValue.str (some "NY".toList)),
   ("country", ConfValue.str (some "US".toList)),
   ("woeid", ConfValue.str (some "12345".toList)),
   ("units", ConfValue.str (some "F".toList)),
   ("interval", ConfValue.int 1800),
   ("enabled", ConfValue.int 1)]

/-- A node in which `alias` and `woeid` hold integers and `city` holds an integer too. -/
def intNamesNode : config_setting_t :=
  [("alias", ConfValue.int 42), ("woeid", ConfValue.int 2502265), ("city", ConfValue.int 7),
   ("units", ConfValue.str (some "C".toList))]

/-- The record the "Home" example node loads to. -/
def homeLocation : LocationInfo :=
  { alias_ := some "Home".toList, city_ := none, state_ := none, country_ := none,
    woeid_ := some "12345".toList, units_ := 'F', interval_ := 1800, enabled_ := 1 }

/-! ## Lemmas on strings, integers and the store -/

theorem g_strndup_strlen (s : CStrPtr) :
    g_strndup s (match s with
                 | some t => strlen t
                 | none => 0) = s := by
  cases s <;> simp [g_strndup, strlen]

theorem toGuint_toCInt (n : Nat) (h : n < 4294967296) : toGuint (toCInt n) = n := by
  unfold toGuint toCInt
  rw [Nat.mod_eq_of_lt h]
  split <;> omega

theorem wrapGint_of_range (i : Int) (h1 : -2147483648 ≤ i) (h2 : i < 2147483648) :
    wrapGint i = i := by
  unfold wrapGint
  omega

theorem get_member_put_same (cfg : config_setting_t) (k : String) (v : ConfValue) :
    config_setting_get_member (config_setting_put cfg k v) k = some v := by
  unfold config_setting_get_member
  induction cfg with
  | nil => simp [config_setting_put, List.lookup]
  | cons hd tl ih =>
    obtain ⟨k0, v0⟩ := hd
    by_cases hk : k = k0
    · subst hk
      simp [config_setting_put, List.lookup]
    · have hne : (k == k0) = false := by simpa using hk
      simp [config_setting_put, List.lookup, hne, ih]

theorem get_member_put_other (cfg : config_setting_t) (k k2 : String) (v : ConfValue)
    (h : k2 ≠ k) :
    config_setting_get_member (config_setting_put cfg k v) k2 =
      config_setting_get_member cfg k2 := by
  unfold config_setting_get_member
  induction cfg with
  | nil =>
    have hne : (k2 == k) = false := by simpa using h
    simp [config_setting_put, List.lookup, hne]
  | cons hd tl ih =>
    obtain ⟨k0, v0⟩ := hd
    by_cases hk : k = k0
    · subst hk
      have hne : (k2 == k) = false := by simpa using h
      simp [config_setting_put, List.lookup, hne]
    · have hne : (k == k0) = false := by simpa using hk
      by_cases hk2 : k2 = k0
      · subst hk2
        simp [config_setting_put, List.lookup, hne]
      · have hne2 : (k2 == k0) = false := by simpa using hk2
        simp [config_setting_put, List.lookup, hne, hne2, ih]

/-! ## The loader in closed form -/

theorem load_alias_eq (cfg : config_setting_t) (st : LocationInfo × Log)
    (h : st.1.alias_ = none) :
    load_alias cfg st =
      ({ st.1 with alias_ := strOrIntField cfg "alias" }, st.2 ++ fieldMsgs cfg "alias") := by
  obtain ⟨loc, log⟩ := st
  simp only at h
  unfold load_alias strOrIntField fieldMsgs lookupFails
  cases h1 : config_setting_lookup_string cfg "alias" with
  | some s => simp [g_strndup_strlen]
  | none =>
    cases h2 : config_setting_lookup_int cfg "alias" with
    | some n => simp
    | none =>
      cases loc
      simp_all [missingMsg]

theorem load_woeid_eq (cfg : config_setting_t) (st : LocationInfo × Log)
    (h : st.1.woeid_ = none) :
    load_woeid cfg st =
      ({ st.1 with woeid_ := strOrIntField cfg "woeid" }, st.2 ++ fieldMsgs cfg "woeid") := by
  obtain ⟨loc, log⟩ := st
  simp only at h
  unfold load_woeid strOrIntField fieldMsgs lookupFails
  cases h1 : config_setting_lookup_string cfg "woeid" with
  | some s => simp [g_strndup_strlen]
  | none =>
    cases h2 : config_setting_lookup_int cfg "woeid" with
    | some n => simp
    | none =>
      cases loc
      simp_all [missingMsg]

theorem load_city_eq (cfg : config_setting_t) (st : LocationInfo × Log)
    (h : st.1.city_ = none) :
    load_city cfg st =
      ({ st.1 with city_ := strField cfg "city" }, st.2 ++ fieldMsgs cfg "city") := by
  obtain ⟨loc, log⟩ := st
  simp only at h
  unfold load_city strField fieldMsgs lookupFails
  cases h1 : config_setting_lookup_string cfg "city" with
  | some s => simp [g_strndup_strlen]
  | none =>
    cases loc
    simp_all [missingMsg]

theorem load_state_eq (cfg : config_setting_t) (st : LocationInfo × Log)
    (h : st.1.state_ = none) :
    load_state cfg st =
      ({ st.1 with state_ := strField cfg "state" }, st.2 ++ fieldMsgs cfg "state") := by
  obtain ⟨loc, log⟩ := st
  simp only at h
  unfold load_state strField fieldMsgs lookupFails
  cases h1 : config_setting_lookup_string cfg "state" with
  | some s => simp [g_strndup_strlen]
  | none =>
    cases loc
    simp_all [missingMsg]

theorem load_country_eq (cfg : config_setting_t) (st : LocationInfo × Log)
    (h : st.1.country_ = none) :
    load_country cfg st =
      ({ st.1 with country_ := strField cfg "country" }, st.2 ++ fieldMsgs cfg "country") := by
  obtain ⟨loc, log⟩ := st
  simp only at h
  unfold load_country strField fieldMsgs lookupFails
  cases h1 : config_setting_lookup_string cfg "country" with
  | some s => simp [g_strndup_strlen]
  | none =>
    cases loc
    simp_all [missingMsg]

theorem load_units_eq (cfg : config_setting_t) (st : LocationInfo × Log)
    (hr : unitsReadable cfg) (h : st.1.units_ = NUL) :
    load_units cfg st =
      some ({ st.1 with units_ := unitsField cfg }, st.2 ++ fieldMsgs cfg "units") := by
  obtain ⟨loc, log⟩ := st
  simp only at h
  unfold unitsReadable at hr
  unfold load_units unitsField fieldMsgs lookupFails
  cases h1 : config_setting_lookup_string cfg "units" with
  | some s =>
    cases s with
    | none => exact absurd h1 hr
    | some t => simp
  | none =>
    cases loc
    simp_all [missingMsg]

theorem load_interval_eq (cfg : config_setting_t) (st : LocationInfo × Log)
    (h : st.1.interval_ = 0) :
    load_interval cfg st =
      ({ st.1 with interval_ := match config_setting_lookup_int cfg "interval" with
                                | some n => toGuint n
                                | none => 0 },
       st.2 ++ fieldMsgs cfg "interval") := by
  obtain ⟨loc, log⟩ := st
  simp only at h
  unfold load_interval fieldMsgs lookupFails
  cases h1 : config_setting_lookup_int cfg "interval" with
  | some s => simp
  | none =>
    cases loc
    simp_all [missingMsg]

theorem load_enabled_eq (cfg : config_setting_t) (st : LocationInfo × Log)
    (h : st.1.enabled_ = 0) :
    load_enabled cfg st =
      ({ st.1 with enabled_ := match config_setting_lookup_int cfg "enabled" with
                               | some n => n
                               | none => 0 },
       st.2 ++ fieldMsgs cfg "enabled") := by
  obtain ⟨loc, log⟩ := st
  simp only at h
  unfold load_enabled fieldMsgs lookupFails
  cases h1 : config_setting_lookup_int cfg "enabled" with
  | some s => simp
  | none =>
    cases loc
    simp_all [missingMsg]

theorem loadLocation_eq (cfg : config_setting_t) (h : unitsReadable cfg) :
    loadLocation cfg = some (loadedRecord cfg, loadedMsgs cfg) := by
  unfold loadLocation
  simp only
  rw [load_alias_eq _ _ rfl, load_city_eq _ _ rfl, load_state_eq _ _ rfl,
    load_country_eq _ _ rfl, load_woeid_eq _ _ rfl, load_units_eq _ _ h rfl]
  simp only
  rw [load_interval_eq _ _ rfl, load_enabled_eq _ _ rfl]
  simp [loadedRecord, loadedMsgs, LocationInfo.zero]

theorem loadLocation_fault (cfg : config_setting_t) (h : ¬ unitsReadable cfg) :
    loadLocation cfg = none := by
  unfold unitsReadable at h
  have h2 : config_setting_lookup_string cfg "units" = some none := by
    by_contra hc
    exact h hc
  simp [loadLocation, load_units, h2]

/-! ## The callbacks in closed form -/

theorem weather_constructor_spec (w : World) (panel config : Nat)
    (h : unitsReadable (w.configs config)) :
    ∃ w2, weather_constructor w panel config = some (w2, w.nextWidget + 1) ∧
      w2.g_instancecnt = wrapGint (w.g_instancecnt + 1) ∧
      w2.live = { myid_ := wrapGint (w.g_instancecnt + 1), weather_ := w.nextWidget,
                  config_ := config, panel_ := panel } :: w.live ∧
      w2.calls = w.calls ++ (if wrapGint (w.g_instancecnt + 1) = 1 then initCalls else []) ∧
      w2.logutil_up = (if wrapGint (w.g_instancecnt + 1) = 1 then true else w.logutil_up) ∧
      w2.yahooutil_up = (if wrapGint (w.g_instancecnt + 1) = 1 then true else w.yahooutil_up) ∧
      w2.configs = w.configs ∧ w2.writes = w.writes ∧
      w2.log = w.log ++ [logDebug "weather_constructor()" []] ++ loadedMsgs (w.configs config) ∧
      w2.propsets = w.propsets ++
        (if (loadedRecord (w.configs config)).alias_.isSome &&
            (loadedRecord (w.configs config)).woeid_.isSome
         then [(w.nextWidget, loadedRecord (w.configs config))] else []) ∧
      w2.parent w.nextWidget = some (w.nextWidget + 1) ∧
      w2.pluginData (w.nextWidget + 1) =
        some { myid_ := wrapGint (w.g_instancecnt + 1), weather_ := w.nextWidget,
               config_ := config, panel_ := panel } := by
  by_cases hc : wrapGint (w.g_instancecnt + 1) = 1 <;>
  by_cases ha : ((loadedRecord (w.configs config)).alias_.isSome &&
      (loadedRecord (w.configs config)).woeid_.isSome) = true <;>
  simp [weather_constructor, hc, ha, loadLocation_eq _ h, LXW_LOG, yahooutil_init,
    logutil_max_loglevel_set, logutil_init, initCalls]

theorem weather_constructor_fault (w : World) (panel config : Nat)
    (h : ¬ unitsReadable (w.configs config)) :
    weather_constructor w panel config = none := by
  by_cases hc : wrapGint (w.g_instancecnt + 1) = 1 <;>
  simp [weather_constructor, hc, loadLocation_fault _ h, LXW_LOG, yahooutil_init,
    logutil_max_loglevel_set, logutil_init]

theorem weather_destructor_spec (w : World) (priv : WeatherPluginPrivate) :
    (weather_destructor w priv).g_instancecnt = wrapGint (w.g_instancecnt - 1) ∧
    (weather_destructor w priv).live = w.live.erase priv ∧
    (weather_destructor w priv).calls =
      w.calls ++ (if wrapGint (w.g_instancecnt - 1) = 0 then cleanupCalls else []) ∧
    (weather_destructor w priv).logutil_up =
      (if wrapGint (w.g_instancecnt - 1) = 0 then false else w.logutil_up) ∧
    (weather_destructor w priv).yahooutil_up =
      (if wrapGint (w.g_instancecnt - 1) = 0 then false else w.yahooutil_up) ∧
    (weather_destructor w priv).configs = w.configs ∧
    (weather_destructor w priv).writes = w.writes := by
  by_cases hc : wrapGint (w.g_instancecnt - 1) = 0 <;>
  simp [weather_destructor, hc, LXW_LOG, yahooutil_cleanup, logutil_cleanup, cleanupCalls]

theorem weather_save_configuration_found (w : World) (widget : Nat) (location : LocationInfo)
    (priv : WeatherPluginPrivate) (h : findPrivate w widget = some priv) :
    (weather_save_configuration w widget (some location)).configs =
        Function.update w.configs priv.config_ (savedNode (w.configs priv.config_) location) ∧
    (weather_save_configuration w widget (some location)).writes =
        w.writes ++ savedWrites priv.config_ location ∧
    (weather_save_configuration w widget (some location)).log =
        w.log ++ [logDebug "weather_save_configuration(%d)" [priv.myid_]] := by
  simp [weather_save_configuration, h, LXW_LOG, config_group_set_string, config_group_set_int,
    snprintf_c, savedNode, savedWrites]

theorem constructor_private_reachable (w : World) (panel config : Nat)
    (hr : unitsReadable (w.configs config)) :
    ∃ w2 eventbox priv, weather_constructor w panel config = some (w2, eventbox) ∧
      findPrivate w2 w.nextWidget = some priv ∧ priv.config_ = config ∧
      w2.configs = w.configs := by
  obtain ⟨w2, hw, -, -, -, -, -, hcfg, -, -, -, hpar, hdata⟩ :=
    weather_constructor_spec w panel config hr
  exact ⟨w2, _, { myid_ := wrapGint (w.g_instancecnt + 1), weather_ := w.nextWidget,
                  config_ := config, panel_ := panel },
    hw, by simp [findPrivate, hpar, hdata], rfl, hcfg⟩

/-! ## The counter along a sequence of calls -/

theorem step_spec (w : World) (e : Event) (n : Nat) (hI : CountInv w n)
    (hn : n < 2147483647) (he : enabled w e = true) :
    ∃ w2, step w e = some w2 ∧ CountInv w2 (n + 1) ∧
      w2.g_instancecnt = w.g_instancecnt + e.delta ∧
      w2.calls = w.calls ++
        (if w.g_instancecnt = 0 ∧ w2.g_instancecnt = 1 then initCalls
         else if w.g_instancecnt = 1 ∧ w2.g_instancecnt = 0 then cleanupCalls else []) := by
  obtain ⟨hc, hl, hlog, hyahoo⟩ := hI
  cases e with
  | construct panel config =>
    have hr : unitsReadable (w.configs config) := by simpa [enabled] using he
    obtain ⟨w2, hw, hcnt, hlive, hcalls, hlu, hyu, -⟩ := weather_constructor_spec w panel config hr
    have hwrap : wrapGint (w.g_instancecnt + 1) = w.g_instancecnt + 1 :=
      wrapGint_of_range _ (by omega) (by omega)
    rw [hwrap] at hcnt hcalls hlu hyu
    refine ⟨w2, by simp [step, hw], ⟨?_, ?_, ?_, ?_⟩, by simp [hcnt, Event.delta], ?_⟩
    · rw [hcnt, hlive, hc]; simp
    · rw [hlive]; simp; omega
    · rw [hlu, hcnt]
      by_cases h1 : w.g_instancecnt + 1 = 1
      · simp [h1]
      · simp only [h1, if_false, hlog]; omega
    · rw [hyu, hcnt]
      by_cases h1 : w.g_instancecnt + 1 = 1
      · simp [h1]
      · simp only [h1, if_false, hyahoo]; omega
    · rw [hcalls, hcnt]
      by_cases h1 : w.g_instancecnt + 1 = 1
      · have h0 : w.g_instancecnt = 0 := by omega
        simp [h0]
      · have h0 : ¬ w.g_instancecnt = 0 := by omega
        have h2 : ¬ (w.g_instancecnt = 1 ∧ w.g_instancecnt + 1 = 0) := by omega
        have h3 : ¬ (w.g_instancecnt = 0 ∧ w.g_instancecnt + 1 = 1) := by omega
        simp only [if_neg h1, if_neg h3, if_neg h2]
  | destroy priv =>
    have hm : priv ∈ w.live := by simpa [enabled] using he
    have hpos : 0 < w.live.length := List.length_pos_of_mem hm
    obtain ⟨hcnt, hlive, hcalls, hlu, hyu, -⟩ := weather_destructor_spec w priv
    have hwrap : wrapGint (w.g_instancecnt - 1) = w.g_instancecnt - 1 :=
      wrapGint_of_range _ (by omega) (by omega)
    rw [hwrap] at hcnt hcalls hlu hyu
    have hlen : (w.live.erase priv).length = w.live.length - 1 := List.length_erase_of_mem hm
    refine ⟨weather_destructor w priv, by simp [step], ⟨?_, ?_, ?_, ?_⟩,
      by rw [hcnt]; simp [Event.delta]; omega, ?_⟩
    · rw [hcnt, hlive, hlen, hc]; omega
    · rw [hlive, hlen]; omega
    · rw [hlu, hcnt]
      by_cases h1 : w.g_instancecnt - 1 = 0
      · simp [h1]
      · simp only [h1, if_false, hlog]; omega
    · rw [hyu, hcnt]
      by_cases h1 : w.g_instancecnt - 1 = 0
      · simp [h1]
      · simp only [h1, if_false, hyahoo]; omega
    · rw [hcalls, hcnt]
      by_cases h1 : w.g_instancecnt - 1 = 0
      · have h0 : w.g_instancecnt = 1 := by omega
        simp [h0]
      · have h0 : ¬ w.g_instancecnt = 1 := by omega
        have h2 : ¬ (w.g_instancecnt = 0 ∧ w.g_instancecnt - 1 = 1) := by omega
        have h3 : ¬ (w.g_instancecnt = 1 ∧ w.g_instancecnt - 1 = 0) := by omega
        simp only [if_neg h1, if_neg h3, if_neg h2]

theorem run_inv (evs : List Event) : ∀ (w : World) (n : Nat), CountInv w n →
    n + evs.length < 2147483648 → admissible w evs = true →
    ∃ w2, run w evs = some w2 ∧ CountInv w2 (n + evs.length) := by
  induction evs with
  | nil =>
    intro w n hI _ _
    exact ⟨w, rfl, by simpa using hI⟩
  | cons e es ih =>
    intro w n hI hlen hadm
    simp only [admissible, Bool.and_eq_true] at hadm
    obtain ⟨he, hrest⟩ := hadm
    have hn : n < 2147483647 := by simp only [List.length_cons] at hlen; omega
    obtain ⟨w1, hstep, hI1, -⟩ := step_spec w e n hI hn he
    rw [hstep] at hrest
    obtain ⟨w2, hrun, hI2⟩ := ih w1 (n + 1) hI1
      (by simp only [List.length_cons] at hlen; omega) hrest
    refine ⟨w2, by simp [run, hstep, hrun], ?_⟩
    have : n + (e :: es).length = n + 1 + es.length := by simp only [List.length_cons]; omega
    rw [this]
    exact hI2

theorem initial_inv (w : World) (h : Initial w) : CountInv w 0 := by
  obtain ⟨hc, hl, hy, hlive⟩ := h
  simp [CountInv, hc, hl, hy, hlive]

theorem run_append (a b : List Event) : ∀ w : World,
    run w (a ++ b) = (run w a).bind (fun w1 => run w1 b) := by
  induction a with
  | nil => intro w; rfl
  | cons e es ih =>
    intro w
    simp only [List.cons_append, run]
    cases step w e with
    | none => rfl
    | some w1 => exact ih w1

theorem admissible_append (a b : List Event) : ∀ w : World, admissible w (a ++ b) = true →
    admissible w a = true ∧ ∃ w1, run w a = some w1 ∧ admissible w1 b = true := by
  induction a with
  | nil =>
    intro w h
    exact ⟨rfl, w, rfl, h⟩
  | cons e es ih =>
    intro w h
    simp only [List.cons_append, admissible, Bool.and_eq_true] at h
    obtain ⟨he, hrest⟩ := h
    cases hs : step w e with
    | none => rw [hs] at hrest; exact absurd hrest (by simp)
    | some w1 =>
      rw [hs] at hrest
      obtain ⟨h1, w2, h2, h3⟩ := ih w1 hrest
      exact ⟨by simp [admissible, he, hs, h1], w2, by simp [run, hs, h2], h3⟩

theorem run_step_at (w0 : World) (evs pre : List Event) (e : Event) (post : List Event)
    (h0 : Initial w0) (hlen : evs.length < 2147483648) (hadm : admissible w0 evs = true)
    (hsplit : evs = pre ++ e :: post) :
    ∃ w w2, run w0 pre = some w ∧ enabled w e = true ∧ step w e = some w2 ∧
      run w0 (pre ++ [e]) = some w2 ∧ CountInv w pre.length ∧ CountInv w2 (pre.length + 1) ∧
      w2.g_instancecnt = w.g_instancecnt + e.delta ∧
      w2.calls = w.calls ++
        (if w.g_instancecnt = 0 ∧ w2.g_instancecnt = 1 then initCalls
         else if w.g_instancecnt = 1 ∧ w2.g_instancecnt = 0 then cleanupCalls else []) := by
  subst hsplit
  have hl : pre.length < 2147483647 := by
    simp only [List.length_append, List.length_cons] at hlen
    omega
  obtain ⟨hpre, w, hrun, hrest⟩ := admissible_append pre (e :: post) w0 hadm
  obtain ⟨w1, hrun1, hI⟩ := run_inv pre w0 0 (initial_inv w0 h0) (by omega) hpre
  rw [hrun] at hrun1
  cases hrun1
  rw [Nat.zero_add] at hI
  have he : enabled w e = true := by
    simp only [admissible, Bool.and_eq_true] at hrest
    exact hrest.1
  obtain ⟨w2, hstep, hI2, hd, hcalls⟩ := step_spec w e pre.length hI hl he
  refine ⟨w, w2, hrun, he, hstep, ?_, hI, hI2, hd, hcalls⟩
  rw [run_append, hrun]
  simp [run, hstep]

theorem calls_trichotomy (w w2 : World)
    (h : w2.calls = w.calls ++
      (if w.g_instancecnt = 0 ∧ w2.g_instancecnt = 1 then initCalls
       else if w.g_instancecnt = 1 ∧ w2.g_instancecnt = 0 then cleanupCalls else [])) :
    (w2.calls = w.calls ++ initCalls ↔ (w.g_instancecnt = 0 ∧ w2.g_instancecnt = 1)) ∧
    (w2.calls = w.calls ++ cleanupCalls ↔ (w.g_instancecnt = 1 ∧ w2.g_instancecnt = 0)) ∧
    (w2.calls = w.calls ↔
      (¬ (w.g_instancecnt = 0 ∧ w2.g_instancecnt = 1) ∧
       ¬ (w.g_instancecnt = 1 ∧ w2.g_instancecnt = 0))) := by
  have hne1 : initCalls ≠ cleanupCalls := by decide
  have hne2 : initCalls ≠ [] := by decide
  have hne3 : cleanupCalls ≠ [] := by decide
  by_cases hA : w.g_instancecnt = 0 ∧ w2.g_instancecnt = 1
  · have hB : ¬ (w.g_instancecnt = 1 ∧ w2.g_instancecnt = 0) := by omega
    rw [if_pos hA] at h
    rw [h]
    refine ⟨by simp [hA], ?_, ?_⟩
    · simp only [List.append_cancel_left_eq, hne1, hB]
    · simp [hA, hne2]
  · by_cases hB : w.g_instancecnt = 1 ∧ w2.g_instancecnt = 0
    · rw [if_neg hA, if_pos hB] at h
      rw [h]
      refine ⟨?_, by simp [hB], ?_⟩
      · simp only [List.append_cancel_left_eq, hne1.symm, hA]
      · simp [hB, hne3]
    · rw [if_neg hA, if_neg hB] at h
      rw [h]
      refine ⟨?_, ?_, by simp [hA, hB]⟩
      · simp only [List.append_nil, List.self_eq_append_right, hne2, hA]
      · simp only [List.append_nil, List.self_eq_append_right, hne3, hB]

/-! ## What the saved node holds -/

theorem cstrOfBuf_units (c : Char) :
    cstrOfBuf [c, NUL] = if c = NUL then [] else [c] := by
  by_cases h : c = NUL
  · subst h
    simp [cstrOfBuf, List.takeWhile]
  · have hb : (c != NUL) = true := by simpa using h
    simp [cstrOfBuf, List.takeWhile, h, hb]

theorem cstrHead_units (c : Char) : cstrHead (cstrOfBuf [c, NUL]) = c := by
  rw [cstrOfBuf_units]
  by_cases h : c = NUL
  · simp [h, cstrHead]
  · simp [h, cstrHead]

theorem savedNode_members (cfg : config_setting_t) (loc : LocationInfo) :
    config_setting_get_member (savedNode cfg loc) "alias" = some (ConfValue.str loc.alias_) ∧
    config_setting_get_member (savedNode cfg loc) "city" = some (ConfValue.str loc.city_) ∧
    config_setting_get_member (savedNode cfg loc) "state" = some (ConfValue.str loc.state_) ∧
    config_setting_get_member (savedNode cfg loc) "country" = some (ConfValue.str loc.country_) ∧
    config_setting_get_member (savedNode cfg loc) "woeid" = some (ConfValue.str loc.woeid_) ∧
    config_setting_get_member (savedNode cfg loc) "units" =
      some (ConfValue.str (some (cstrOfBuf [loc.units_, NUL]))) ∧
    config_setting_get_member (savedNode cfg loc) "interval" =
      some (ConfValue.int (toCInt loc.interval_)) ∧
    config_setting_get_member (savedNode cfg loc) "enabled" =
      some (ConfValue.int loc.enabled_) := by
  unfold savedNode
  refine ⟨?_, ?_, ?_, ?_, ?_, ?_, ?_, ?_⟩ <;>
  simp only [get_member_put_same, get_member_put_other _ _ _ _ (by decide : "alias" ≠ "city"),
    get_member_put_other _ _ _ _ (by decide : "alias" ≠ "state"),
    get_member_put_other _ _ _ _ (by decide : "alias" ≠ "country"),
    get_member_put_other _ _ _ _ (by decide : "alias" ≠ "woeid"),
    get_member_put_other _ _ _ _ (by decide : "alias" ≠ "units"),
    get_member_put_other _ _ _ _ (by decide : "alias" ≠ "interval"),
    get_member_put_other _ _ _ _ (by decide : "alias" ≠ "enabled"),
    get_member_put_other _ _ _ _ (by decide : "city" ≠ "state"),
    get_member_put_other _ _ _ _ (by decide : "city" ≠ "country"),
    get_member_put_other _ _ _ _ (by decide : "city" ≠ "woeid"),
    get_member_put_other _ _ _ _ (by decide : "city" ≠ "units"),
    get_member_put_other _ _ _ _ (by decide : "city" ≠ "interval"),
    get_member_put_other _ _ _ _ (by decide : "city" ≠ "enabled"),
    get_member_put_other _ _ _ _ (by decide : "state" ≠ "country"),
    get_member_put_other _ _ _ _ (by decide : "state" ≠ "woeid"),
    get_member_put_other _ _ _ _ (by decide : "state" ≠ "units"),
    get_member_put_other _ _ _ _ (by decide : "state" ≠ "interval"),
    get_member_put_other _ _ _ _ (by decide : "state" ≠ "enabled"),
    get_member_put_other _ _ _ _ (by decide : "country" ≠ "woeid"),
    get_member_put_other _ _ _ _ (by decide : "country" ≠ "units"),
    get_member_put_other _ _ _ _ (by decide : "country" ≠ "interval"),
    get_member_put_other _ _ _ _ (by decide : "country" ≠ "enabled"),
    get_member_put_other _ _ _ _ (by decide : "woeid" ≠ "units"),
    get_member_put_other _ _ _ _ (by decide : "woeid" ≠ "interval"),
    get_member_put_other _ _ _ _ (by decide : "woeid" ≠ "enabled"),
    get_member_put_other _ _ _ _ (by decide : "units" ≠ "interval"),
    get_member_put_other _ _ _ _ (by decide : "units" ≠ "enabled"),
    get_member_put_other _ _ _ _ (by decide : "interval" ≠ "enabled")]

theorem savedNode_other (cfg : config_setting_t) (loc : LocationInfo) (k : String)
    (hk : k ∉ locationKeys) :
    config_setting_get_member (savedNode cfg loc) k = config_setting_get_member cfg k := by
  simp only [locationKeys, List.mem_cons, List.mem_singleton, List.not_mem_nil, or_false,
    not_or] at hk
  obtain ⟨h1, h2, h3, h4, h5, h6, h7, h8⟩ := hk
  unfold savedNode
  simp only [get_member_put_other _ _ _ _ h1, get_member_put_other _ _ _ _ h2,
    get_member_put_other _ _ _ _ h3, get_member_put_other _ _ _ _ h4,
    get_member_put_other _ _ _ _ h5, get_member_put_other _ _ _ _ h6,
    get_member_put_other _ _ _ _ h7, get_member_put_other _ _ _ _ h8]

theorem loadLocation_savedNode (cfg : config_setting_t) (loc : LocationInfo)
    (hi : loc.interval_ < 4294967296) :
    loadLocation (savedNode cfg loc) = some (loc, []) := by
  obtain ⟨m1, m2, m3, m4, m5, m6, m7, m8⟩ := savedNode_members cfg loc
  have hr : unitsReadable (savedNode cfg loc) := by
    simp [unitsReadable, config_setting_lookup_string, m6]
  rw [loadLocation_eq _ hr]
  have hrec : loadedRecord (savedNode cfg loc) = loc := by
    cases loc
    simp_all [loadedRecord, strOrIntField, strField, unitsField, config_setting_lookup_string,
      config_setting_lookup_int, cstrHead_units, toGuint_toCInt]
  have hmsgs : loadedMsgs (savedNode cfg loc) = [] := by
    simp [loadedMsgs, fieldMsgs, lookupFails, config_setting_lookup_string,
      config_setting_lookup_int, m1, m2, m3, m4, m5, m6, m7, m8]
  rw [hrec, hmsgs]

/-! ## Counting the logged errors -/

theorem errorCount_append (a b : Log) : errorCount (a ++ b) = errorCount a + errorCount b := by
  simp [errorCount, List.countP_append]

theorem errorCount_fieldMsgs (cfg : config_setting_t) (k : String) :
    errorCount (fieldMsgs cfg k) = if lookupFails cfg k then 1 else 0 := by
  unfold fieldMsgs missingMsg
  by_cases h : lookupFails cfg k = true
  · rw [if_pos h, if_pos h]
    by_cases hk : k = "enabled"
    · rw [if_pos hk]
      simp [errorCount, logError]
    · rw [if_neg hk]
      simp [errorCount, logError]
  · rw [if_neg h, if_neg h]
    simp [errorCount]

theorem errorCount_loadedMsgs (cfg : config_setting_t) :
    errorCount (loadedMsgs cfg) = failedCount cfg := by
  simp only [loadedMsgs, errorCount_append, errorCount_fieldMsgs, failedCount, locationKeys,
    List.countP_cons, List.countP_nil]
  omega

theorem lookupFails_of_absent (cfg : config_setting_t) (k : String)
    (h : config_setting_get_member cfg k = none) : lookupFails cfg k = true := by
  unfold lookupFails config_setting_lookup_string config_setting_lookup_int
  rw [h]
  split
  · rfl
  · split <;> rfl

theorem failedCount_wellTyped (cfg : config_setting_t) (h : wellTyped cfg) :
    failedCount cfg = absentCount cfg := by
  unfold failedCount absentCount
  apply List.countP_congr
  intro k hk
  cases hm : config_setting_get_member cfg k with
  | none => simp [lookupFails_of_absent cfg k hm]
  | some v => simp [h k hk (by simp [hm])]

/-! ## The claims -/

/-- Claim C3: take any sequence of constructor and destructor calls that
starts with the counter at 0 and the collaborators down, in which every call can
be made (each destruction targets a live instance, no construction faults) and
which is short enough for the `gint` counter not to overflow. Then the whole
sequence runs, and at every step of it: the collaborators are initialised
exactly when the step takes the counter from 0 to 1, torn down exactly when it
takes the counter from 1 to 0, no collaborator call is made at any other step,
and after the step each collaborator is up exactly when the counter is
positive. -/
theorem collaborators_follow_counter (w0 : World) (evs : List Event) (h0 : Initial w0)
    (hlen : evs.length < 2147483648) (hadm : admissible w0 evs = true) :
    (∃ w, run w0 evs = some w ∧
      (w.logutil_up = true ↔ 0 < w.g_instancecnt) ∧
      (w.yahooutil_up = true ↔ 0 < w.g_instancecnt)) ∧
    ∀ pre e post, evs = pre ++ e :: post →
      ∃ w w2, run w0 pre = some w ∧ step w e = some w2 ∧ run w0 (pre ++ [e]) = some w2 ∧
        (w2.calls = w.calls ++ initCalls ↔ (w.g_instancecnt = 0 ∧ w2.g_instancecnt = 1)) ∧
        (w2.calls = w.calls ++ cleanupCalls ↔ (w.g_instancecnt = 1 ∧ w2.g_instancecnt = 0)) ∧
        (w2.calls = w.calls ↔
          (¬ (w.g_instancecnt = 0 ∧ w2.g_instancecnt = 1) ∧
           ¬ (w.g_instancecnt = 1 ∧ w2.g_instancecnt = 0))) ∧
        (w2.logutil_up = true ↔ 0 < w2.g_instancecnt) ∧
        (w2.yahooutil_up = true ↔ 0 < w2.g_instancecnt) := by
  refine ⟨?_, ?_⟩
  · obtain ⟨w, hrun, hI⟩ := run_inv evs w0 0 (initial_inv w0 h0) (by omega) hadm
    exact ⟨w, hrun, hI.2.2.1, hI.2.2.2⟩
  · intro pre e post hsplit
    obtain ⟨w, w2, h1, -, h3, h4, -, hI2, -, hcalls⟩ :=
      run_step_at w0 evs pre e post h0 hlen hadm hsplit
    obtain ⟨t1, t2, t3⟩ := calls_trichotomy w w2 hcalls
    exact ⟨w, w2, h1, h3, h4, t1, t2, t3, hI2.2.2.1, hI2.2.2.2⟩

/-- Witness for C3: two constructions followed by the destruction of both
instances, from an empty world. -/
theorem collaborators_follow_counter_witness :
    Initial (emptyWorld homeNode) ∧
    (∃ w, run (emptyWorld homeNode)
        [Event.construct 0 0, Event.construct 0 0,
         Event.destroy { myid_ := 1, weather_ := 0, config_ := 0, panel_ := 0 },
         Event.destroy { myid_ := 2, weather_ := 2, config_ := 0, panel_ := 0 }] = some w ∧
      (w.logutil_up = true ↔ 0 < w.g_instancecnt) ∧
      (w.yahooutil_up = true ↔ 0 < w.g_instancecnt)) ∧
    ∀ pre e post,
      [Event.construct 0 0, Event.construct 0 0,
       Event.destroy { myid_ := 1, weather_ := 0, config_ := 0, panel_ := 0 },
       Event.destroy { myid_ := 2, weather_ := 2, config_ := 0, panel_ := 0 }] =
        pre ++ e :: post →
      ∃ w w2, run (emptyWorld homeNode) pre = some w ∧ step w e = some w2 ∧
        run (emptyWorld homeNode) (pre ++ [e]) = some w2 ∧
        (w2.calls = w.calls ++ initCalls ↔ (w.g_instancecnt = 0 ∧ w2.g_instancecnt = 1)) ∧
        (w2.calls = w.calls ++ cleanupCalls ↔ (w.g_instancecnt = 1 ∧ w2.g_instancecnt = 0)) ∧
        (w2.calls = w.calls ↔
          (¬ (w.g_instancecnt = 0 ∧ w2.g_instancecnt = 1) ∧
           ¬ (w.g_instancecnt = 1 ∧ w2.g_instancecnt = 0))) ∧
        (w2.logutil_up = true ↔ 0 < w2.g_instancecnt) ∧
        (w2.yahooutil_up = true ↔ 0 < w2.g_instancecnt) :=
  ⟨⟨rfl, rfl, rfl, rfl⟩,
   collaborators_follow_counter (emptyWorld homeNode) _ ⟨rfl, rfl, rfl, rfl⟩ (by decide)
     (by decide)⟩

/-- Claim C4: take any sequence of constructor and destructor calls that starts
with the counter at 0 and no live instance, in which every call can be made
(each destruction targets a live instance, no construction faults) and which is
short enough for the `gint` counter not to overflow. Then the whole sequence
runs, every `weather_constructor` call in it raises `g_instancecnt` by exactly 1,
every `weather_destructor` call lowers it by exactly 1, and after every step
the counter equals the number of live private contexts and is not negative. -/
theorem counter_counts_live_instances (w0 : World) (evs : List Event) (h0 : Initial w0)
    (hlen : evs.length < 2147483648) (hadm : admissible w0 evs = true) :
    (∃ w, run w0 evs = some w ∧
      w.g_instancecnt = (w.live.length : Int) ∧ 0 ≤ w.g_instancecnt) ∧
    ∀ pre e post, evs = pre ++ e :: post →
      ∃ w w2, run w0 pre = some w ∧ step w e = some w2 ∧ run w0 (pre ++ [e]) = some w2 ∧
        (∀ panel config, e = Event.construct panel config →
          (weather_constructor w panel config).map Prod.fst = some w2 ∧
          w2.g_instancecnt = w.g_instancecnt + 1) ∧
        (∀ priv, e = Event.destroy priv →
          weather_destructor w priv = w2 ∧ priv ∈ w.live ∧
          w2.g_instancecnt = w.g_instancecnt - 1) ∧
        w2.g_instancecnt = (w2.live.length : Int) ∧ 0 ≤ w2.g_instancecnt := by
  refine ⟨?_, ?_⟩
  · obtain ⟨w, hrun, hI⟩ := run_inv evs w0 0 (initial_inv w0 h0) (by omega) hadm
    exact ⟨w, hrun, hI.1, by rw [hI.1]; omega⟩
  · intro pre e post hsplit
    obtain ⟨w, w2, h1, hen, h3, h4, -, hI2, hd, -⟩ :=
      run_step_at w0 evs pre e post h0 hlen hadm hsplit
    refine ⟨w, w2, h1, h3, h4, ?_, ?_, hI2.1, by rw [hI2.1]; omega⟩
    · intro panel config he
      subst he
      exact ⟨h3, by simpa [Event.delta] using hd⟩
    · intro priv he
      subst he
      refine ⟨by simpa [step] using h3, by simpa [enabled] using hen, ?_⟩
      simpa [Event.delta, sub_eq_add_neg] using hd

/-- Witness for C4: a construction, a destruction and a second construction from
an empty world. -/
theorem counter_counts_live_instances_witness :
    Initial (emptyWorld homeNode) ∧
    (∃ w, run (emptyWorld homeNode)
        [Event.construct 0 0,
         Event.destroy { myid_ := 1, weather_ := 0, config_ := 0, panel_ := 0 },
         Event.construct 3 0] = some w ∧
      w.g_instancecnt = (w.live.length : Int) ∧ 0 ≤ w.g_instancecnt) ∧
    ∀ pre e post,
      [Event.construct 0 0,
       Event.destroy { myid_ := 1, weather_ := 0, config_ := 0, panel_ := 0 },
       Event.construct 3 0] = pre ++ e :: post →
      ∃ w w2, run (emptyWorld homeNode) pre = some w ∧ step w e = some w2 ∧
        run (emptyWorld homeNode) (pre ++ [e]) = some w2 ∧
        (∀ panel config, e = Event.construct panel config →
          (weather_constructor w panel config).map Prod.fst = some w2 ∧
          w2.g_instancecnt = w.g_instancecnt + 1) ∧
        (∀ priv, e = Event.destroy priv →
          weather_destructor w priv = w2 ∧ priv ∈ w.live ∧
          w2.g_instancecnt = w.g_instancecnt - 1) ∧
        w2.g_instancecnt = (w2.live.length : Int) ∧ 0 ≤ w2.g_instancecnt :=
  ⟨⟨rfl, rfl, rfl, rfl⟩,
   counter_counts_live_instances (emptyWorld homeNode) _ ⟨rfl, rfl, rfl, rfl⟩ (by decide)
     (by decide)⟩

/-- Claim C1: for every location record with an interval in the `guint` range
and every world in which the widget's private context is found, saving the
record with `weather_save_configuration` and then running the loading part of
`weather_constructor` on the instance's configuration node gives back the same
record, field for field, and logs no error. -/
theorem save_then_load_round_trip (w : World) (widget : Nat) (priv : WeatherPluginPrivate)
    (loc : LocationInfo) (hp : findPrivate w widget = some priv)
    (hi : loc.interval_ < 4294967296) :
    loadLocation ((weather_save_configuration w widget (some loc)).configs priv.config_) =
      some (loc, []) := by
  rw [(weather_save_configuration_found w widget loc priv hp).1, Function.update_same]
  exact loadLocation_savedNode _ loc hi

/-- Witness for C1: the record of the "Work" example saved over the node of the
"Home" example. -/
theorem save_then_load_round_trip_witness :
    findPrivate (instanceWorld homeNode) 0 =
      some { myid_ := 1, weather_ := 0, config_ := 0, panel_ := 0 } ∧
    workLocation.interval_ < 4294967296 ∧
    loadLocation
      ((weather_save_configuration (instanceWorld homeNode) 0 (some workLocation)).configs 0) =
      some (workLocation, []) :=
  ⟨rfl, by decide,
   save_then_load_round_trip (instanceWorld homeNode) 0
     { myid_ := 1, weather_ := 0, config_ := 0, panel_ := 0 } workLocation rfl (by decide)⟩

/-- Counterexample to C6 as stated: saving the "Work" record issues eight
writes, not six; five of them carry a value that is not a `NULL` string; and a
node that was empty holds eight pairs afterwards. -/
theorem save_work_not_six_pairs :
    (weather_save_configuration (instanceWorld []) 0 (some workLocation)).writes.length = 8 ∧
    (weather_save_configuration (instanceWorld []) 0 (some workLocation)).writes.length ≠ 6 ∧
    ((weather_save_configuration (instanceWorld []) 0 (some workLocation)).writes.filter
      (fun x => x.2.2.nonNull)).length = 5 ∧
    ((weather_save_configuration (instanceWorld []) 0 (some workLocation)).configs 0).length
      = 8 := by
  decide

/-- Claim C6, amended: saving the "Work" record through a widget whose private
context is found issues exactly eight writes to the instance's node, one per
field in source order; `state`, `country` and `woeid` are written with a `NULL`
string, and the value written under `units` is the one-character string "C". -/
theorem save_work_writes_eight_pairs (w : World) (widget : Nat) (priv : WeatherPluginPrivate)
    (hp : findPrivate w widget = some priv) :
    (weather_save_configuration w widget (some workLocation)).writes =
      w.writes ++
        [(priv.config_, "alias", ConfValue.str (some "Work".toList)),
         (priv.config_, "city", ConfValue.str (some "Springfield".toList)),
         (priv.config_, "state", ConfValue.str none),
         (priv.config_, "country", ConfValue.str none),
         (priv.config_, "woeid", ConfValue.str none),
         (priv.config_, "units", ConfValue.str (some ['C'])),
         (priv.config_, "interval", ConfValue.int 600),
         (priv.config_, "enabled", ConfValue.int 0)] ∧
    config_setting_lookup_string
      ((weather_save_configuration w widget (some workLocation)).configs priv.config_) "units" =
      some (some ['C']) := by
  obtain ⟨hc, hw, -⟩ := weather_save_configuration_found w widget workLocation priv hp
  obtain ⟨-, -, -, -, -, m6, -⟩ := savedNode_members (w.configs priv.config_) workLocation
  have hu : cstrOfBuf [workLocation.units_, NUL] = ['C'] := by decide
  have ht : toCInt workLocation.interval_ = 600 := by decide
  refine ⟨?_, ?_⟩
  · rw [hw]
    simp only [savedWrites, hu, ht]
    rfl
  · rw [hc, Function.update_same]
    simp only [config_setting_lookup_string, m6, hu]

/-- Witness for C6, amended: the instance of `instanceWorld` with an empty node. -/
theorem save_work_writes_eight_pairs_witness :
    findPrivate (instanceWorld []) 0 =
      some { myid_ := 1, weather_ := 0, config_ := 0, panel_ := 0 } ∧
    (weather_save_configuration (instanceWorld []) 0 (some workLocation)).writes =
      (instanceWorld []).writes ++
        [((0 : Nat), "alias", ConfValue.str (some "Work".toList)),
         (0, "city", ConfValue.str (some "Springfield".toList)),
         (0, "state", ConfValue.str none),
         (0, "country", ConfValue.str none),
         (0, "woeid", ConfValue.str none),
         (0, "units", ConfValue.str (some ['C'])),
         (0, "interval", ConfValue.int 600),
         (0, "enabled", ConfValue.int 0)] ∧
    config_setting_lookup_string
      ((weather_save_configuration (instanceWorld []) 0 (some workLocation)).configs 0) "units" =
      some (some ['C']) :=
  ⟨rfl,
   save_work_writes_eight_pairs (instanceWorld []) 0
     { myid_ := 1, weather_ := 0, config_ := 0, panel_ := 0 } rfl⟩

/-- Claim C8: when the widget has no parent, or its parent carries no plugin
data, `weather_save_configuration` appends exactly one error message to the log
and changes nothing else: every configuration node is as before and no write is
issued, whatever the record (`NULL` included). -/
theorem save_without_private_context (w : World) (widget : Nat) (loc : Option LocationInfo)
    (h : w.parent widget = none ∨ ∃ p, w.parent widget = some p ∧ w.pluginData p = none) :
    (weather_save_configuration w widget loc).configs = w.configs ∧
    (weather_save_configuration w widget loc).writes = w.writes ∧
    (weather_save_configuration w widget loc).log =
      w.log ++ [logError "Weather: weather_save_configuration() for invalid widget"] ∧
    errorCount (weather_save_configuration w widget loc).log = errorCount w.log + 1 ∧
    (weather_save_configuration w widget loc).propsets = w.propsets ∧
    (weather_save_configuration w widget loc).g_instancecnt = w.g_instancecnt ∧
    (weather_save_configuration w widget loc).calls = w.calls ∧
    (weather_save_configuration w widget loc).live = w.live := by
  have hf : findPrivate w widget = none := by
    rcases h with h | ⟨p, hp, hd⟩
    · simp [findPrivate, h]
    · simp [findPrivate, hp, hd]
  simp [weather_save_configuration, hf, LXW_LOG, errorCount, logError, List.countP_append]

/-- Witness for C8: a widget without a parent in an empty world, and the record
of the "Work" example. -/
theorem save_without_private_context_witness :
    ((emptyWorld homeNode).parent 5 = none ∨
      ∃ p, (emptyWorld homeNode).parent 5 = some p ∧ (emptyWorld homeNode).pluginData p = none) ∧
    (weather_save_configuration (emptyWorld homeNode) 5 (some workLocation)).configs =
      (emptyWorld homeNode).configs ∧
    (weather_save_configuration (emptyWorld homeNode) 5 (some workLocation)).writes =
      (emptyWorld homeNode).writes ∧
    (weather_save_configuration (emptyWorld homeNode) 5 (some workLocation)).log =
      (emptyWorld homeNode).log ++
        [logError "Weather: weather_save_configuration() for invalid widget"] ∧
    errorCount (weather_save_configuration (emptyWorld homeNode) 5 (some workLocation)).log =
      errorCount (emptyWorld homeNode).log + 1 ∧
    (weather_save_configuration (emptyWorld homeNode) 5 (some workLocation)).propsets =
      (emptyWorld homeNode).propsets ∧
    (weather_save_configuration (emptyWorld homeNode) 5 (some workLocation)).g_instancecnt =
      (emptyWorld homeNode).g_instancecnt ∧
    (weather_save_configuration (emptyWorld homeNode) 5 (some workLocation)).calls =
      (emptyWorld homeNode).calls ∧
    (weather_save_configuration (emptyWorld homeNode) 5 (some workLocation)).live =
      (emptyWorld homeNode).live :=
  ⟨Or.inl rfl,
   save_without_private_context (emptyWorld homeNode) 5 (some workLocation) (Or.inl rfl)⟩

/-- Counterexample to C9 as stated: for the all-zero record, whose units
character is NUL, the value written under `units` is the empty string, not a
string of length one. -/
theorem save_zero_units_is_empty_string :
    findPrivate (instanceWorld []) 0 =
      some { myid_ := 1, weather_ := 0, config_ := 0, panel_ := 0 } ∧
    config_setting_get_member
      ((weather_save_configuration (instanceWorld []) 0 (some LocationInfo.zero)).configs 0)
      "units" = some (ConfValue.str (some [])) ∧
    (weather_save_configuration (instanceWorld []) 0 (some LocationInfo.zero)).writes.get? 5 =
      some (0, "units", ConfValue.str (some [])) := by
  decide

/-- Claim C9, amended: for every record and every widget whose private context
is found, `weather_save_configuration` issues exactly eight writes, all to the
instance's node, under the keys alias, city, state, country, woeid, units (string
values) and interval, enabled (integer values); afterwards the node holds those
values under those keys, every other key of the node and every other node is as
before; and the string written under `units` is the one-character string made
of the record's units character when that character is not NUL, and the empty
string when it is NUL. -/
theorem save_writes_every_field (w : World) (widget : Nat) (priv : WeatherPluginPrivate)
    (loc : LocationInfo) (hp : findPrivate w widget = some priv) :
    ∃ units : CStr,
      (loc.units_ ≠ NUL → units = [loc.units_]) ∧ (loc.units_ = NUL → units = []) ∧
      (weather_save_configuration w widget (some loc)).writes =
        w.writes ++
          [(priv.config_, "alias", ConfValue.str loc.alias_),
           (priv.config_, "city", ConfValue.str loc.city_),
           (priv.config_, "state", ConfValue.str loc.state_),
           (priv.config_, "country", ConfValue.str loc.country_),
           (priv.config_, "woeid", ConfValue.str loc.woeid_),
           (priv.config_, "units", ConfValue.str (some units)),
           (priv.config_, "interval", ConfValue.int (toCInt loc.interval_)),
           (priv.config_, "enabled", ConfValue.int loc.enabled_)] ∧
      config_setting_get_member
        ((weather_save_configuration w widget (some loc)).configs priv.config_) "alias" =
          some (ConfValue.str loc.alias_) ∧
      config_setting_get_member
        ((weather_save_configuration w widget (some loc)).configs priv.config_) "city" =
          some (ConfValue.str loc.city_) ∧
      config_setting_get_member
        ((weather_save_configuration w widget (some loc)).configs priv.config_) "state" =
          some (ConfValue.str loc.state_) ∧
      config_setting_get_member
        ((weather_save_configuration w widget (some loc)).configs priv.config_) "country" =
          some (ConfValue.str loc.country_) ∧
      config_setting_get_member
        ((weather_save_configuration w widget (some loc)).configs priv.config_) "woeid" =
          some (ConfValue.str loc.woeid_) ∧
      config_setting_get_member
        ((weather_save_configuration w widget (some loc)).configs priv.config_) "units" =
          some (ConfValue.str (some units)) ∧
      config_setting_get_member
        ((weather_save_configuration w widget (some loc)).configs priv.config_) "interval" =
          some (ConfValue.int (toCInt loc.interval_)) ∧
      config_setting_get_member
        ((weather_save_configuration w widget (some loc)).configs priv.config_) "enabled" =
          some (ConfValue.int loc.enabled_) ∧
      (∀ k, k ∉ locationKeys →
        config_setting_get_member
          ((weather_save_configuration w widget (some loc)).configs priv.config_) k =
        config_setting_get_member (w.configs priv.config_) k) ∧
      (∀ c, c ≠ priv.config_ →
        (weather_save_configuration w widget (some loc)).configs c = w.configs c) := by
  obtain ⟨hc, hw, -⟩ := weather_save_configuration_found w widget loc priv hp
  obtain ⟨m1, m2, m3, m4, m5, m6, m7, m8⟩ := savedNode_members (w.configs priv.config_) loc
  refine ⟨cstrOfBuf [loc.units_, NUL], ?_, ?_, ?_, ?_⟩
  · intro h
    rw [cstrOfBuf_units, if_neg h]
  · intro h
    rw [cstrOfBuf_units, if_pos h]
  · rw [hw]
    rfl
  · rw [hc, Function.update_same]
    refine ⟨m1, m2, m3, m4, m5, m6, m7, m8, ?_, ?_⟩
    · intro k hk
      exact savedNode_other _ loc k hk
    · intro c hne
      exact Function.update_noteq hne _ _

/-- Witness for C9, amended: the record of the "Work" example saved over the
node of the "Home" example. -/
theorem save_writes_every_field_witness :
    findPrivate (instanceWorld homeNode) 0 =
      some { myid_ := 1, weather_ := 0, config_ := 0, panel_ := 0 } ∧
    ∃ units : CStr,
      (workLocation.units_ ≠ NUL → units = [workLocation.units_]) ∧
      (weather_save_configuration (instanceWorld homeNode) 0 (some workLocation)).writes =
        (instanceWorld homeNode).writes ++
          [((0 : Nat), "alias", ConfValue.str workLocation.alias_),
           (0, "city", ConfValue.str workLocation.city_),
           (0, "state", ConfValue.str workLocation.state_),
           (0, "country", ConfValue.str workLocation.country_),
           (0, "woeid", ConfValue.str workLocation.woeid_),
           (0, "units", ConfValue.str (some units)),
           (0, "interval", ConfValue.int (toCInt workLocation.interval_)),
           (0, "enabled", ConfValue.int workLocation.enabled_)] := by
  refine ⟨rfl, ?_⟩
  obtain ⟨units, h1, -, h3, -⟩ :=
    save_writes_every_field (instanceWorld homeNode) 0
      { myid_ := 1, weather_ := 0, config_ := 0, panel_ := 0 } workLocation rfl
  exact ⟨units, h1, h3⟩

/-- Counterexample to C2 as stated: on a node whose `alias` and `woeid` are
present and hold the empty string, the constructor attaches the location, with
an empty alias and an empty woeid. -/
theorem empty_names_are_attached :
    (weather_constructor (emptyWorld emptyNamesNode) 0 0).map (fun r => r.1.propsets) =
      some [(0, { alias_ := some [], city_ := none, state_ := none, country_ := none,
                  woeid_ := some [], units_ := NUL, interval_ := 0, enabled_ := 0 })] := by
  decide

/-- Claim C2, amended: on every node on which loading does not fault, the
constructor returns, and it assigns the loaded record to the "location" property
of the new weather widget if and only if both `alias_` and `woeid_` of the loaded
record are set (not `NULL`); otherwise it assigns nothing. A field is set exactly
when its key holds a string that is not `NULL` (the empty string included), or
holds no string but an integer. -/
theorem attach_iff_alias_and_woeid_set (w : World) (panel config : Nat)
    (hr : unitsReadable (w.configs config)) :
    ∃ w2 eventbox loc msgs,
      weather_constructor w panel config = some (w2, eventbox) ∧
      loadLocation (w.configs config) = some (loc, msgs) ∧
      (w2.propsets = w.propsets ++ [(w.nextWidget, loc)] ↔
        (loc.alias_ ≠ none ∧ loc.woeid_ ≠ none)) ∧
      (w2.propsets = w.propsets ↔ ¬ (loc.alias_ ≠ none ∧ loc.woeid_ ≠ none)) ∧
      (loc.alias_ ≠ none ↔
        ((∃ s, config_setting_lookup_string (w.configs config) "alias" = some (some s)) ∨
         (config_setting_lookup_string (w.configs config) "alias" = none ∧
          ∃ n, config_setting_lookup_int (w.configs config) "alias" = some n))) ∧
      (loc.woeid_ ≠ none ↔
        ((∃ s, config_setting_lookup_string (w.configs config) "woeid" = some (some s)) ∨
         (config_setting_lookup_string (w.configs config) "woeid" = none ∧
          ∃ n, config_setting_lookup_int (w.configs config) "woeid" = some n))) := by
  obtain ⟨w2, hw, -, -, -, -, -, -, -, -, hprops, -⟩ := weather_constructor_spec w panel config hr
  refine ⟨w2, _, loadedRecord (w.configs config), loadedMsgs (w.configs config), hw,
    loadLocation_eq _ hr, ?_, ?_, ?_, ?_⟩
  · rw [hprops]
    cases ha : (loadedRecord (w.configs config)).alias_ <;>
    cases hb : (loadedRecord (w.configs config)).woeid_ <;> simp
  · rw [hprops]
    cases ha : (loadedRecord (w.configs config)).alias_ <;>
    cases hb : (loadedRecord (w.configs config)).woeid_ <;> simp
  · simp only [loadedRecord, strOrIntField, g_strdup_printf_d]
    cases h1 : config_setting_lookup_string (w.configs config) "alias" with
    | some s => cases s <;> simp
    | none => cases h2 : config_setting_lookup_int (w.configs config) "alias" <;> simp
  · simp only [loadedRecord, strOrIntField, g_strdup_printf_d]
    cases h1 : config_setting_lookup_string (w.configs config) "woeid" with
    | some s => cases s <;> simp
    | none => cases h2 : config_setting_lookup_int (w.configs config) "woeid" <;> simp

/-- Witness for C2, amended: the "Home" example node in an empty world. -/
theorem attach_iff_alias_and_woeid_set_witness :
    unitsReadable ((emptyWorld homeNode).configs 0) ∧
    ∃ w2 eventbox loc msgs,
      weather_constructor (emptyWorld homeNode) 0 0 = some (w2, eventbox) ∧
      loadLocation ((emptyWorld homeNode).configs 0) = some (loc, msgs) ∧
      (w2.propsets = (emptyWorld homeNode).propsets ++ [((emptyWorld homeNode).nextWidget, loc)] ↔
        (loc.alias_ ≠ none ∧ loc.woeid_ ≠ none)) ∧
      (w2.propsets = (emptyWorld homeNode).propsets ↔
        ¬ (loc.alias_ ≠ none ∧ loc.woeid_ ≠ none)) := by
  refine ⟨by decide, ?_⟩
  obtain ⟨w2, eventbox, loc, msgs, h1, h2, h3, h4, -⟩ :=
    attach_iff_alias_and_woeid_set (emptyWorld homeNode) 0 0 (by decide)
  exact ⟨w2, eventbox, loc, msgs, h1, h2, h3, h4⟩

/-- Counterexample to C5 as stated: on a node in which all eight keys are
present and `city` holds an integer, no field is absent and yet one error is
logged. -/
theorem error_logged_without_absent_field :
    absentCount cityIntNode = 0 ∧
    (loadLocation cityIntNode).map (fun r => errorCount r.2) = some 1 := by
  decide

/-- Claim C5, amended: on every node on which loading does not fault, loading
returns a record in which every field whose key is absent has its zero value
(`NULL`, character 0, integer 0), the message of every absent field is in the
log, and the number of error messages equals the number of fields whose lookups
all fail: the key is absent, or holds a value of a type the field's block does
not accept. When every present key holds a value of an accepted type, that
number is the number of absent fields. -/
theorem absent_fields_stay_zero (cfg : config_setting_t) (hr : unitsReadable cfg) :
    ∃ loc msgs, loadLocation cfg = some (loc, msgs) ∧
      (config_setting_get_member cfg "alias" = none → loc.alias_ = none) ∧
      (config_setting_get_member cfg "city" = none → loc.city_ = none) ∧
      (config_setting_get_member cfg "state" = none → loc.state_ = none) ∧
      (config_setting_get_member cfg "country" = none → loc.country_ = none) ∧
      (config_setting_get_member cfg "woeid" = none → loc.woeid_ = none) ∧
      (config_setting_get_member cfg "units" = none → loc.units_ = NUL) ∧
      (config_setting_get_member cfg "interval" = none → loc.interval_ = 0) ∧
      (config_setting_get_member cfg "enabled" = none → loc.enabled_ = 0) ∧
      (∀ k ∈ locationKeys, config_setting_get_member cfg k = none → missingMsg k ∈ msgs) ∧
      errorCount msgs = failedCount cfg ∧
      (wellTyped cfg → errorCount msgs = absentCount cfg) := by
  refine ⟨loadedRecord cfg, loadedMsgs cfg, loadLocation_eq cfg hr, ?_, ?_, ?_, ?_, ?_, ?_, ?_,
    ?_, ?_, errorCount_loadedMsgs cfg, ?_⟩
  · intro h
    simp [loadedRecord, strOrIntField, config_setting_lookup_string, config_setting_lookup_int, h]
  · intro h
    simp [loadedRecord, strField, config_setting_lookup_string, h]
  · intro h
    simp [loadedRecord, strField, config_setting_lookup_string, h]
  · intro h
    simp [loadedRecord, strField, config_setting_lookup_string, h]
  · intro h
    simp [loadedRecord, strOrIntField, config_setting_lookup_string, config_setting_lookup_int, h]
  · intro h
    simp [loadedRecord, unitsField, config_setting_lookup_string, h]
  · intro h
    simp [loadedRecord, config_setting_lookup_int, h]
  · intro h
    simp [loadedRecord, config_setting_lookup_int, h]
  · intro k hk h
    have hf := lookupFails_of_absent cfg k h
    simp only [locationKeys, List.mem_cons, List.mem_singleton, List.not_mem_nil, or_false] at hk
    rcases hk with hk | hk | hk | hk | hk | hk | hk | hk <;> subst hk <;>
      simp [loadedMsgs, fieldMsgs, hf]
  · intro hwt
    rw [errorCount_loadedMsgs, failedCount_wellTyped cfg hwt]

/-- Witness for C5, amended: the "Home" example node, in which three fields are
absent. -/
theorem absent_fields_stay_zero_witness :
    unitsReadable homeNode ∧ wellTyped homeNode ∧ absentCount homeNode = 3 ∧
    ∃ loc msgs, loadLocation homeNode = some (loc, msgs) ∧
      (config_setting_get_member homeNode "city" = none → loc.city_ = none) ∧
      (config_setting_get_member homeNode "state" = none → loc.state_ = none) ∧
      (config_setting_get_member homeNode "country" = none → loc.country_ = none) ∧
      (∀ k ∈ locationKeys, config_setting_get_member homeNode k = none → missingMsg k ∈ msgs) ∧
      errorCount msgs = failedCount homeNode ∧
      (wellTyped homeNode → errorCount msgs = absentCount homeNode) := by
  refine ⟨by decide, by unfold wellTyped; decide, by decide, ?_⟩
  obtain ⟨loc, msgs, h0, -, h2, h3, h4, -, -, -, -, h9, h10, h11⟩ :=
    absent_fields_stay_zero homeNode (by decide)
  exact ⟨loc, msgs, h0, h2, h3, h4, h9, h10, h11⟩

/-- Claim C7: in every world, constructing an instance on the "Home" example
node (alias "Home", woeid "12345", units "F", interval 1800, enabled 1, no
city, state or country) loads alias "Home", woeid "12345", units F, interval
1800, enabled 1 with city, state and country unset, assigns that record to the
"location" property of the new weather widget, and logs exactly three errors,
for city, state and country. -/
theorem home_example_loads_and_attaches (w : World) (panel config : Nat)
    (hc : w.configs config = homeNode) :
    loadLocation (w.configs config) =
      some ({ alias_ := some "Home".toList, city_ := none, state_ := none, country_ := none,
              woeid_ := some "12345".toList, units_ := 'F', interval_ := 1800, enabled_ := 1 },
            [logError "Weather: could not lookup city in config.",
             logError "Weather: could not lookup state in config.",
             logError "Weather: could not lookup country in config."]) ∧
    ∃ w2 eventbox, weather_constructor w panel config = some (w2, eventbox) ∧
      w2.propsets = w.propsets ++ [(w.nextWidget, homeLocation)] ∧
      w2.log = w.log ++ [logDebug "weather_constructor()" [],
        logError "Weather: could not lookup city in config.",
        logError "Weather: could not lookup state in config.",
        logError "Weather: could not lookup country in config."] ∧
      errorCount w2.log = errorCount w.log + 3 := by
  have hr : unitsReadable (w.configs config) := by rw [hc]; decide
  obtain ⟨w2, hw, -, -, -, -, -, -, -, hlog, hprops, -⟩ := weather_constructor_spec w panel config hr
  rw [hc] at hlog hprops
  have hrec : loadedRecord homeNode = homeLocation := by decide
  have hmsgs : loadedMsgs homeNode =
      [logError "Weather: could not lookup city in config.",
       logError "Weather: could not lookup state in config.",
       logError "Weather: could not lookup country in config."] := by decide
  refine ⟨by rw [hc]; decide, w2, _, hw, ?_, ?_, ?_⟩
  · rw [hprops, hrec]
    rfl
  · rw [hlog, hmsgs]
    simp
  · rw [hlog, hmsgs]
    simp [errorCount, List.countP_append, logError, logDebug, List.countP_cons]

/-- Witness for C7: the "Home" example node in an empty world. -/
theorem home_example_loads_and_attaches_witness :
    (emptyWorld homeNode).configs 0 = homeNode ∧
    loadLocation ((emptyWorld homeNode).configs 0) =
      some ({ alias_ := some "Home".toList, city_ := none, state_ := none, country_ := none,
              woeid_ := some "12345".toList, units_ := 'F', interval_ := 1800, enabled_ := 1 },
            [logError "Weather: could not lookup city in config.",
             logError "Weather: could not lookup state in config.",
             logError "Weather: could not lookup country in config."]) ∧
    ∃ w2 eventbox, weather_constructor (emptyWorld homeNode) 0 0 = some (w2, eventbox) ∧
      w2.propsets = (emptyWorld homeNode).propsets ++
        [((emptyWorld homeNode).nextWidget, homeLocation)] ∧
      w2.log = (emptyWorld homeNode).log ++ [logDebug "weather_constructor()" [],
        logError "Weather: could not lookup city in config.",
        logError "Weather: could not lookup state in config.",
        logError "Weather: could not lookup country in config."] ∧
      errorCount w2.log = errorCount (emptyWorld homeNode).log + 3 :=
  ⟨rfl, home_example_loads_and_attaches (emptyWorld homeNode) 0 0 rfl⟩

/-- Claim C10: on every node on which loading does not fault, loading returns,
and for `alias` and for `woeid`: when the string lookup succeeds the field is
the string found, whatever the integer lookup would give; when it fails and the
integer lookup yields `n` the field is the decimal text of `n`; and the field's
error message is logged exactly when both lookups fail. For `city`, `state` and
`country` the field is the string found when the string lookup succeeds, and an
integer under the key leaves the field unset and logs the field's error
message. -/
theorem alias_and_woeid_accept_integers (cfg : config_setting_t) (hr : unitsReadable cfg) :
    ∃ loc msgs, loadLocation cfg = some (loc, msgs) ∧
      (∀ s, config_setting_lookup_string cfg "alias" = some s → loc.alias_ = s) ∧
      (∀ n, config_setting_lookup_string cfg "alias" = none →
        config_setting_lookup_int cfg "alias" = some n → loc.alias_ = some (toString n).toList) ∧
      (logError "Weather: could not lookup alias in config." ∈ msgs ↔
        (config_setting_lookup_string cfg "alias" = none ∧
         config_setting_lookup_int cfg "alias" = none)) ∧
      (∀ s, config_setting_lookup_string cfg "woeid" = some s → loc.woeid_ = s) ∧
      (∀ n, config_setting_lookup_string cfg "woeid" = none →
        config_setting_lookup_int cfg "woeid" = some n → loc.woeid_ = some (toString n).toList) ∧
      (logError "Weather: could not lookup woeid in config." ∈ msgs ↔
        (config_setting_lookup_string cfg "woeid" = none ∧
         config_setting_lookup_int cfg "woeid" = none)) ∧
      (∀ s, config_setting_lookup_string cfg "city" = some s → loc.city_ = s) ∧
      (∀ s, config_setting_lookup_string cfg "state" = some s → loc.state_ = s) ∧
      (∀ s, config_setting_lookup_string cfg "country" = some s → loc.country_ = s) ∧
      (∀ n, config_setting_get_member cfg "city" = some (ConfValue.int n) →
        loc.city_ = none ∧ logError "Weather: could not lookup city in config." ∈ msgs) ∧
      (∀ n, config_setting_get_member cfg "state" = some (ConfValue.int n) →
        loc.state_ = none ∧ logError "Weather: could not lookup state in config." ∈ msgs) ∧
      (∀ n, config_setting_get_member cfg "country" = some (ConfValue.int n) →
        loc.country_ = none ∧
          logError "Weather: could not lookup country in config." ∈ msgs) := by
  refine ⟨loadedRecord cfg, loadedMsgs cfg, loadLocation_eq cfg hr, ?_, ?_, ?_, ?_, ?_, ?_, ?_,
    ?_, ?_, ?_, ?_, ?_⟩
  · intro s h
    simp [loadedRecord, strOrIntField, h]
  · intro n h1 h2
    simp [loadedRecord, strOrIntField, h1, h2, g_strdup_printf_d]
  · simp [loadedMsgs, fieldMsgs, lookupFails, missingMsg, logError]
  · intro s h
    simp [loadedRecord, strOrIntField, h]
  · intro n h1 h2
    simp [loadedRecord, strOrIntField, h1, h2, g_strdup_printf_d]
  · simp [loadedMsgs, fieldMsgs, lookupFails, missingMsg, logError]
  · intro s h
    simp [loadedRecord, strField, h]
  · intro s h
    simp [loadedRecord, strField, h]
  · intro s h
    simp [loadedRecord, strField, h]
  · intro n h
    simp [loadedRecord, loadedMsgs, fieldMsgs, lookupFails, missingMsg, logError, strField,
      config_setting_lookup_string, h]
  · intro n h
    simp [loadedRecord, loadedMsgs, fieldMsgs, lookupFails, missingMsg, logError, strField,
      config_setting_lookup_string, h]
  · intro n h
    simp [loadedRecord, loadedMsgs, fieldMsgs, lookupFails, missingMsg, logError, strField,
      config_setting_lookup_string, h]

/-- Witness for C10: a node whose `alias`, `woeid` and `city` hold integers. -/
theorem alias_and_woeid_accept_integers_witness :
    unitsReadable intNamesNode ∧
    ∃ loc msgs, loadLocation intNamesNode = some (loc, msgs) ∧
      (∀ n, config_setting_lookup_string intNamesNode "alias" = none →
        config_setting_lookup_int intNamesNode "alias" = some n →
        loc.alias_ = some (toString n).toList) ∧
      (∀ n, config_setting_lookup_string intNamesNode "woeid" = none →
        config_setting_lookup_int intNamesNode "woeid" = some n →
        loc.woeid_ = some (toString n).toList) ∧
      (∀ n, config_setting_get_member intNamesNode "city" = some (ConfValue.int n) →
        loc.city_ = none ∧ logError "Weather: could not lookup city in config." ∈ msgs) := by
  refine ⟨by decide, ?_⟩
  obtain ⟨loc, msgs, h0, -, h2, -, -, h5, -, -, -, -, h10, -⟩ :=
    alias_and_woeid_accept_integers intNamesNode (by decide)
  exact ⟨loc, msgs, h0, h2, h5, h10⟩

end Weather
